import Mathlib

/-!
Verification development for the SmartDoc-AI summarization service
(`src/app/ai.py`, `src/app/main.py`, `src/app/crud.py`).

The Python code is embedded shallowly:

* Python strings are Lean `String`s; the string algorithms of the
  extractive fallback are written over `List Char` (Python semantics of
  `str.strip`, `re.sub(r"\s+", " ", ...)`, `str.split`, `str.split(sep)`,
  `str.lower`, `re.sub(r"[^\w]", "", ...)` are reproduced for ASCII text).
* The result dictionaries returned by every provider become the
  `SummaryResult` structure; keys that a given return site does not set
  are `none`.
* All interaction with the outside world (the OpenAI client, the Ollama
  HTTP endpoints) is an explicit `Env` argument: each field describes the
  outcome the external service would produce for a given request,
  including the possibility that the underlying library call raises.
* Each provider additionally returns the list of external requests it
  performed (`Ev` events), plus chain-level events recording which
  provider functions `smart_document_summary` invoked; the plain
  functions are the first projections.
-/

namespace SmartDoc

/-! ## Python string primitives -/

/-- Whitespace characters recognised by Python `str.strip` / `\s`
(space, tab, newline, carriage return, vertical tab, form feed). -/
def isPyWs (c : Char) : Bool :=
  c = ' ' || c = '\t' || c = '\n' || c = '\r' || c.val = 11 || c.val = 12

/-- Drop leading Python whitespace. -/
def dropLeadingWs : List Char → List Char
  | [] => []
  | c :: r => if isPyWs c then dropLeadingWs r else c :: r

/-- Python `str.strip()` on a character list. -/
def pyStripChars (l : List Char) : List Char :=
  dropLeadingWs ((dropLeadingWs l.reverse).reverse)

/-- Python `str.strip()`. -/
def pyStrip (s : String) : String :=
  String.mk (pyStripChars s.data)

/-- Collapse a run of adjacent spaces to a single space (helper for
`re.sub(r"\s+", " ", text)`). -/
def squeezeSpaces : List Char → List Char
  | [] => []
  | [c] => [c]
  | a :: b :: rest =>
      if a = ' ' && b = ' ' then squeezeSpaces (b :: rest)
      else a :: squeezeSpaces (b :: rest)

/-- Python `re.sub(r"\s+", " ", text)`: every maximal whitespace run
becomes a single space. -/
def pyCollapseWs (l : List Char) : List Char :=
  squeezeSpaces (l.map (fun c => if isPyWs c then ' ' else c))

/-- Python `text.split(". ")` (non-overlapping left-to-right scan,
empty pieces kept). -/
def splitDotSpace : List Char → List (List Char)
  | [] => [[]]
  | '.' :: ' ' :: rest => [] :: splitDotSpace rest
  | c :: rest =>
      match splitDotSpace rest with
      | [] => [[c]]
      | p :: ps => (c :: p) :: ps

/-- Python `str.lower()` (ASCII). -/
def pyLower (l : List Char) : List Char :=
  l.map Char.toLower

/-- Python `str.split()` with no argument: split on whitespace runs,
discarding empty pieces. -/
def pyWords : List Char → List (List Char)
  | [] => []
  | [c] => if isPyWs c then [] else [[c]]
  | c :: d :: rest =>
      if isPyWs c then pyWords (d :: rest)
      else
        if isPyWs d then [c] :: pyWords (d :: rest)
        else
          match pyWords (d :: rest) with
          | [] => [[c]]
          | w :: ws => (c :: w) :: ws

/-- A Python `\w` word character (ASCII approximation: the inputs of
this repository are ASCII). -/
def isWordChar (c : Char) : Bool :=
  c.isAlphanum || c = '_'

/-- Python `re.sub(r"[^\w]", "", word)`. -/
def stripNonWord (w : List Char) : List Char :=
  w.filter isWordChar

/-- Python `". ".join(pieces)`. -/
def joinDotSpace : List (List Char) → List Char
  | [] => []
  | [p] => p
  | p :: q :: rest => p ++ '.' :: ' ' :: joinDotSpace (q :: rest)

/-- Python `s.endswith(".")`. -/
def endsWithDot (l : List Char) : Bool :=
  match l.getLast? with
  | some c => c = '.'
  | none => false

/-! ## Stable insertion sort (Python `list.sort` semantics on the lists
this code sorts: the comparison keys below are pairwise distinct, so any
stable comparison sort produces the same output). -/

def insertBy {α : Type} (le : α → α → Bool) (x : α) : List α → List α
  | [] => [x]
  | y :: ys => if le x y then x :: y :: ys else y :: insertBy le x ys

def sortBy {α : Type} (le : α → α → Bool) : List α → List α
  | [] => []
  | x :: xs => insertBy le x (sortBy le xs)

/-! ## Result dictionaries -/

/-- The result dictionary every summarization function returns.  A field
is `none` when the corresponding Python return site omits the key.
`processing_time_ns` keeps Ollama's raw `total_duration` nanoseconds
(the source divides by `1e9` into a float only for display). -/
structure SummaryResult where
  summary : String
  status : String
  length : String
  model_used : Option String := none
  tokens_used : Option Nat := none
  processing_time_ns : Option Nat := none
  sentences_selected : Option Nat := none
  deriving Repr, DecidableEq

/-! ## The external world -/

/-- Outcome of one `client.chat.completions.create` call: either the
library raises (network error, bad key, `None` content, ...) with a
message, or it returns the completion text and the reported token
count. -/
inductive ApiResult where
  | raises (msg : String)
  | reply (content : String) (tokens : Option Nat)
  deriving Repr, DecidableEq

/-- Outcome of the `GET /api/tags` availability probe issued by
`test_ollama_connection`. -/
inductive TagsOutcome where
  | connError
  | raises (msg : String)
  | http (code : Nat) (models : List String)
  deriving Repr, DecidableEq

/-- Outcome of the `POST /api/generate` request issued by
`ollama_document_summary`. -/
inductive GenOutcome where
  | timeout
  | raises (msg : String)
  | http (code : Nat) (bodyText : String) (response : String)
      (evalCount : Nat) (totalDuration : Nat)
  deriving Repr, DecidableEq

/-- The external environment of one `smart_document_summary` call.
`hasClient` is `client is not None` (an `OPENAI_API_KEY` was
configured); `openaiCall model prompt maxTokens` is the outcome of the
corresponding OpenAI request; `ollamaGen prompt numPredict` the outcome
of the Ollama generation request. -/
structure Env where
  hasClient : Bool
  openaiCall : String → String → Nat → ApiResult
  ollamaTags : TagsOutcome
  ollamaGen : String → Nat → GenOutcome

/-- External requests and chain-level provider invocations, in program
order. -/
inductive Ev where
  | callOpenAI
  | callOllama
  | callHF
  | callExtractive
  | apiOpenAI (model : String)
  | apiOllamaTags
  | apiOllamaGen
  deriving Repr, DecidableEq

/-- An event that is an actual request to an external backend. -/
def isApiEvent : Ev → Bool
  | .apiOpenAI _ => true
  | .apiOllamaTags => true
  | .apiOllamaGen => true
  | _ => false

/-! ## Shared prompt construction (`ai.py`) -/

def OLLAMA_MODEL : String := "mistral:7b"

def HF_AVAILABLE : Bool := false

/-- The `length_instructions` dictionaries (identical in
`ollama_document_summary` and `openai_document_summary`), looked up
with `.get(length, length_instructions["medium"])`. -/
def length_instructions (length : String) : String :=
  if length = "short" then
    "Provide a concise summary in 2-3 sentences highlighting only the most important points."
  else if length = "medium" then
    "Provide a comprehensive summary in 1-2 paragraphs covering the main topics and key details."
  else if length = "long" then
    "Provide a detailed summary with multiple paragraphs, covering all significant points, arguments, conclusions, and supporting details."
  else
    "Provide a comprehensive summary in 1-2 paragraphs covering the main topics and key details."

/-- The prompt f-string, built identically in both LLM providers. -/
def summaryPrompt (instruction text : String) : String :=
  "Please analyze and summarize the following document. " ++ instruction ++
  "\n\nFocus on:\n- Main topics and themes\n- Key findings or conclusions  \n- Important details and data\n- Overall purpose and context\n\nDocument Text:\n"
  ++ text ++ "\n\nPlease provide a clear, well-structured summary:"

/-- Normalization of the `length` parameter
(`if length not in valid_lengths: length = "medium"`). -/
def normalizeLength (length : String) : String :=
  if length = "short" || length = "medium" || length = "long" then length
  else "medium"

/-! ## `test_ollama_connection` -/

def test_ollama_connection (env : Env) : Bool × String :=
  match env.ollamaTags with
  | .http code models =>
      if code = 200 then
        if models.contains OLLAMA_MODEL then
          (true, "Ollama connected - Mistral 7B available")
        else
          (false, "Ollama connected, but " ++ OLLAMA_MODEL ++
            " not found. Available models: " ++ toString models)
      else
        (false, "Ollama responded with status " ++ toString code)
  | .connError => (false, "Ollama not running. Start with: ollama serve")
  | .raises m => (false, "Ollama connection error: " ++ m)

/-! ## `ollama_document_summary` -/

def ollama_document_summary_events (env : Env) (document_text length : String) :
    SummaryResult × List Ev :=
  if pyStrip document_text = "" then
    ({ summary := "No document text provided for summarization.",
       status := "error", length := length }, [])
  else
    let conn := test_ollama_connection env
    if !conn.1 then
      ({ summary := "Ollama not available: " ++ conn.2,
         status := "error", length := length }, [Ev.apiOllamaTags])
    else
      let length1 := normalizeLength length
      let instruction := length_instructions length1
      let prompt := summaryPrompt instruction document_text
      let numPredict := if length1 = "long" then 1000
        else if length1 = "medium" then 500 else 200
      match env.ollamaGen prompt numPredict with
      | .http code bodyText response evalCount totalDuration =>
          if code = 200 then
            let summaryText := pyStrip response
            if summaryText ≠ "" then
              ({ summary := summaryText, status := "success", length := length1,
                 model_used := some ("ollama/" ++ OLLAMA_MODEL),
                 tokens_used := some evalCount,
                 processing_time_ns := some totalDuration },
               [Ev.apiOllamaTags, Ev.apiOllamaGen])
            else
              ({ summary := "Ollama returned empty response",
                 status := "error", length := length1 },
               [Ev.apiOllamaTags, Ev.apiOllamaGen])
          else
            ({ summary := "Ollama request failed with status " ++ toString code
                 ++ ": " ++ bodyText,
               status := "error", length := length1 },
             [Ev.apiOllamaTags, Ev.apiOllamaGen])
      | .timeout =>
          ({ summary := "Ollama request timed out - the model might be processing a large document",
             status := "error", length := length1 },
           [Ev.apiOllamaTags, Ev.apiOllamaGen])
      | .raises m =>
          ({ summary := "Error connecting to Ollama: " ++ m,
             status := "error", length := length1 },
           [Ev.apiOllamaTags, Ev.apiOllamaGen])

def ollama_document_summary (env : Env) (document_text length : String) :
    SummaryResult :=
  (ollama_document_summary_events env document_text length).1

/-! ## `openai_document_summary` -/

/-- The fixed model preference list
(`models = ["gpt-4o-mini", "gpt-3.5-turbo", "gpt-4"]`). -/
def openaiModels : List String := ["gpt-4o-mini", "gpt-3.5-turbo", "gpt-4"]

/-- The `for model in models:` loop.  A call that raises stores its
message in `last_error` and continues; a call that returns a completion
returns immediately — the source applies `.strip()` to the content and
returns `status="success"` with no emptiness check. -/
def openaiTryModels (env : Env) (prompt : String) (maxTokens : Nat)
    (length : String) : List String → Option String → SummaryResult × List Ev
  | [], lastError =>
      ({ summary := "Failed to generate summary with all available models." ++
           (match lastError with
            | some e => " Last error: " ++ e
            | none => ""),
         status := "error", length := length }, [])
  | model :: rest, _lastError =>
      match env.openaiCall model prompt maxTokens with
      | .reply content tokens =>
          ({ summary := pyStrip content, status := "success", length := length,
             model_used := some model, tokens_used := tokens },
           [Ev.apiOpenAI model])
      | .raises msg =>
          let r := openaiTryModels env prompt maxTokens length rest (some msg)
          (r.1, Ev.apiOpenAI model :: r.2)

def openai_document_summary_events (env : Env) (document_text length : String) :
    SummaryResult × List Ev :=
  if pyStrip document_text = "" then
    ({ summary := "No document text provided for summarization.",
       status := "error", length := length }, [])
  else if !env.hasClient then
    ({ summary := "OpenAI API key not configured. Please set OPENAI_API_KEY in your .env file.",
       status := "error", length := length }, [])
  else
    let length1 := normalizeLength length
    let instruction := length_instructions length1
    let prompt := summaryPrompt instruction document_text
    let maxTokens := if length1 = "long" then 1000
      else if length1 = "medium" then 500 else 200
    openaiTryModels env prompt maxTokens length1 openaiModels none

def openai_document_summary (env : Env) (document_text length : String) :
    SummaryResult :=
  (openai_document_summary_events env document_text length).1

/-! ## `huggingface_document_summary`

In this module `HF_AVAILABLE = False` and `summarizer = None`, so after
the input check the function always returns the "model not available"
error; everything after that check is unreachable and not embedded. -/

def huggingface_document_summary (document_text length : String) :
    SummaryResult :=
  if pyStrip document_text = "" then
    { summary := "No document text provided for summarization.",
      status := "error", length := length }
  else
    { summary := "Hugging Face summarization model not available. Please install: pip install transformers torch",
      status := "error", length := length }

/-! ## `fallback_extractive_summary` -/

/-- Source line `text = re.sub(r"\s+", " ", document_text.strip())`. -/
def fallbackText (document_text : String) : List Char :=
  pyCollapseWs (pyStripChars document_text.data)

/-- Source line `sentences = text.split(". ")`. -/
def fallbackSentences (document_text : String) : List (List Char) :=
  splitDotSpace (fallbackText document_text)

/-- Source line `words = text.lower().split()`. -/
def fallbackWords (document_text : String) : List (List Char) :=
  pyWords (pyLower (fallbackText document_text))

/-- The `word_freq` dictionary: each word of the text, non-word
characters stripped, is counted iff its stripped form is longer than 3
characters; looking up any other word yields 0. -/
def fallbackFreq (document_text : String) (w : List Char) : Nat :=
  (((fallbackWords document_text).map stripNonWord).filter
    (fun x => 3 < x.length)).count w

/-- One sentence's score: the sum of the frequencies of its words
(lowercased, non-word characters stripped), plus a length penalty of
−10 below 5 words, −5 above 50 words. -/
def sentenceScore (freq : List Char → Nat) (sentence : List Char) : Int :=
  let sentence_words := pyWords (pyLower sentence)
  let score : Int :=
    (sentence_words.map (fun w => (freq (stripNonWord w) : Int))).sum
  let length_penalty : Int :=
    if sentence_words.length < 5 then -10
    else if 50 < sentence_words.length then -5
    else 0
  score + length_penalty

/-- The `scored_sentences` list: the `(score + length_penalty, i, sentence)`
triples in original order. -/
def fallbackScored (document_text : String) :
    List (Int × Nat × List Char) :=
  (fallbackSentences document_text).enum.map
    (fun p => (sentenceScore (fallbackFreq document_text) p.2, p.1, p.2))

/-- The comparison of `scored_sentences.sort(reverse=True)`: descending
lexicographic order on the `(score, index, sentence)` triples.  The
indices produced by `enumerate` are pairwise distinct, so the sentence
component of the Python tuple comparison is never consulted; equal
`(score, index)` keys keep their stable original order. -/
def scoredDescLe (a b : Int × Nat × List Char) : Bool :=
  decide (b.1 < a.1) ||
    (decide (a.1 = b.1) && (decide (b.2.1 < a.2.1) || decide (a.2.1 = b.2.1)))

/-- Source line `scored_sentences.sort(reverse=True)`. -/
def fallbackSortedDesc (document_text : String) :
    List (Int × Nat × List Char) :=
  sortBy scoredDescLe (fallbackScored document_text)

/-- Source line `num_sentences = {"short": min(3, n), "medium": min(5, n),
"long": min(8, n)}.get(length, 5)`. -/
def numSentences (length : String) (n : Nat) : Nat :=
  if length = "short" then min 3 n
  else if length = "medium" then min 5 n
  else if length = "long" then min 8 n
  else 5

/-- The ascending re-ordering key of
`sorted(scored_sentences[:num_sentences], key=lambda x: x[1])`. -/
def idxLe (a b : Int × Nat × List Char) : Bool :=
  a.2.1 ≤ b.2.1

/-- The `selected` list: the top `num_sentences` triples, re-sorted by original
position. -/
def fallbackSelected (document_text length : String) :
    List (Int × Nat × List Char) :=
  sortBy idxLe ((fallbackSortedDesc document_text).take
    (numSentences length (fallbackSentences document_text).length))

/-- Source line `summary = ". ".join(...)`, with a period appended when missing. -/
def fallbackSummaryText (document_text length : String) : List Char :=
  let joined := joinDotSpace
    ((fallbackSelected document_text length).map (fun t => t.2.2))
  if endsWithDot joined then joined else joined ++ ['.']

def fallback_extractive_summary (document_text length : String) :
    SummaryResult :=
  if pyStrip document_text = "" then
    { summary := "No document text provided for summarization.",
      status := "error", length := length }
  else
    { summary := String.mk (fallbackSummaryText document_text length),
      status := "success", length := length,
      model_used := some "extractive_fallback",
      sentences_selected :=
        some (numSentences length (fallbackSentences document_text).length) }

/-! ## `smart_document_summary` -/

/-- The tail of the chain after both LLM providers have failed: the
Hugging Face branch (skipped, `HF_AVAILABLE = false`) and the
terminal extractive fallback. -/
def smart_hf_part (document_text length : String) : SummaryResult × List Ev :=
  if HF_AVAILABLE then
    let rh := huggingface_document_summary document_text length
    if rh.status = "success" then (rh, [Ev.callHF])
    else (fallback_extractive_summary document_text length,
      [Ev.callHF, Ev.callExtractive])
  else (fallback_extractive_summary document_text length, [Ev.callExtractive])

/-- The chain from the Ollama attempt on. -/
def smart_local_part (env : Env) (document_text length : String) :
    SummaryResult × List Ev :=
  let r2 := ollama_document_summary_events env document_text length
  if r2.1.status = "success" then (r2.1, Ev.callOllama :: r2.2)
  else
    let r3 := smart_hf_part document_text length
    (r3.1, Ev.callOllama :: r2.2 ++ r3.2)

/-- The provider chain: OpenAI first when a client is configured, then
Ollama, then (disabled) Hugging Face, then the extractive fallback. -/
def smart_document_summary_events (env : Env) (document_text length : String) :
    SummaryResult × List Ev :=
  if env.hasClient then
    let r1 := openai_document_summary_events env document_text length
    if r1.1.status = "success" then (r1.1, Ev.callOpenAI :: r1.2)
    else
      let r2 := smart_local_part env document_text length
      (r2.1, Ev.callOpenAI :: r1.2 ++ r2.2)
  else smart_local_part env document_text length

def smart_document_summary (env : Env) (document_text length : String) :
    SummaryResult :=
  (smart_document_summary_events env document_text length).1

/-! ## Persistence model (`crud.py`, `main.py`)

Rows are modelled with `Nat` identifiers standing in for the opaque
UUIDs; `DB.nextId` models the generator of fresh identifiers.  Query
`.first()` becomes `List.find?` over the table in insertion order. -/

/-- A `Document` row (the fields the summarize workflow reads). -/
structure Document where
  id : Nat
  user_id : Nat
  original_text : String
  filename : String
  deriving Repr, DecidableEq

/-- A `Summary` row. -/
structure Summary where
  id : Nat
  document_id : Nat
  summary_text : String
  summary_length : String
  status : String
  deriving Repr, DecidableEq

/-- The database state. -/
structure DB where
  documents : List Document
  summaries : List Summary
  nextId : Nat
  deriving Repr, DecidableEq

/-- Function `crud.get_document`: first document with the given id owned by the
given user. -/
def get_document (db : DB) (document_id user_id : Nat) : Option Document :=
  db.documents.find? (fun d => d.id = document_id && d.user_id = user_id)

/-- Function `crud.get_summary_by_document`: first summary for the document whose
(joined) owning document belongs to the user. -/
def get_summary_by_document (db : DB) (document_id user_id : Nat) :
    Option Summary :=
  db.summaries.find? (fun s => s.document_id = document_id &&
    db.documents.any (fun d => d.id = s.document_id && d.user_id = user_id))

/-- Function `crud.create_summary`: insert a new row with a fresh identifier. -/
def create_summary (db : DB) (document_id : Nat)
    (summary_text summary_length status : String) : DB × Summary :=
  let s : Summary :=
    { id := db.nextId, document_id := document_id,
      summary_text := summary_text, summary_length := summary_length,
      status := status }
  ({ db with summaries := db.summaries ++ [s], nextId := db.nextId + 1 }, s)

/-- The visible outcome of `POST /summarize/{document_id}`:
an `HTTPException` or a `SummarizeResponse`. -/
inductive SummarizeOutcome where
  | httpError (code : Nat) (detail : String)
  | response (status : String) (summary_id : Nat) (message : String)
  deriving Repr, DecidableEq

/-- Function `main.summarize_document`: look the document up, return the
"already exists" signal when a summary is found, otherwise run the
provider chain and persist a `completed` summary.  An error-status
chain result raises `HTTPException(500, ...)`, which the surrounding
`except Exception` re-wraps into `"Failed to generate summary: ..."`;
the exact re-wrapped rendering of the inner exception is abbreviated
to its detail string.  The best-effort email notification has no
effect on the state modelled here (its failures are swallowed). -/
def summarize_document (env : Env) (db : DB) (document_id user_id : Nat)
    (length : String) : SummarizeOutcome × DB :=
  match get_document db document_id user_id with
  | none => (.httpError 404 "Document not found", db)
  | some document =>
    match get_summary_by_document db document_id user_id with
    | some existing_summary =>
        (.response "already_exists" existing_summary.id
          "Summary already exists for this document", db)
    | none =>
        let ai_result := smart_document_summary env document.original_text length
        if ai_result.status = "error" then
          (.httpError 500 ("Failed to generate summary: " ++ ai_result.summary),
           db)
        else
          let created := create_summary db document_id ai_result.summary
            length "completed"
          (.response "completed" created.2.id
            "Document summarized successfully", created.1)

/-! ## Helper lemmas -/

theorem insertBy_length {α : Type} (le : α → α → Bool) (x : α) (l : List α) :
    (insertBy le x l).length = l.length + 1 := by
  induction l with
  | nil => rfl
  | cons y ys ih =>
      unfold insertBy
      split
      · rfl
      · simp [ih]

theorem sortBy_length {α : Type} (le : α → α → Bool) (l : List α) :
    (sortBy le l).length = l.length := by
  induction l with
  | nil => rfl
  | cons x xs ih =>
      unfold sortBy
      rw [insertBy_length, ih, List.length_cons]

theorem fallbackScored_length (text : String) :
    (fallbackScored text).length = (fallbackSentences text).length := by
  unfold fallbackScored
  rw [List.length_map, List.enum_length]

theorem fallbackSelected_length (text length : String) :
    (fallbackSelected text length).length =
      min (numSentences length (fallbackSentences text).length)
        (fallbackSentences text).length := by
  unfold fallbackSelected fallbackSortedDesc
  rw [sortBy_length, List.length_take, sortBy_length, fallbackScored_length]

theorem fallback_status_success (text length : String)
    (h : pyStrip text ≠ "") :
    (fallback_extractive_summary text length).status = "success" := by
  unfold fallback_extractive_summary
  rw [if_neg h]

theorem smart_success_of_nonempty (env : Env) (text length : String)
    (h : pyStrip text ≠ "") :
    (smart_document_summary env text length).status = "success" := by
  unfold smart_document_summary smart_document_summary_events
    smart_local_part smart_hf_part
  simp only [HF_AVAILABLE, Bool.false_eq_true, if_false]
  split
  · split
    · assumption
    · split
      · assumption
      · exact fallback_status_success text length h
  · split
    · assumption
    · exact fallback_status_success text length h

/-! ## Claim theorems -/

/-- Claim C1: for every input text that is non-empty after trimming
whitespace and every length value, `smart_document_summary` returns a
result with `status = "success"`, whatever the external providers do:
the extractive fallback terminates the chain with a success result. -/
theorem smart_summary_success_on_nonempty (env : Env) (text length : String)
    (h : pyStrip text ≠ "") :
    (smart_document_summary env text length).status = "success" :=
  smart_success_of_nonempty env text length h

/-- Claim C1 witness. -/
theorem smart_summary_success_on_nonempty_witness :
    (smart_document_summary
      ⟨false, fun _ _ _ => .raises "no client", .connError, fun _ _ => .timeout⟩
      "Hello world. A fine day." "short").status = "success" :=
  smart_summary_success_on_nonempty _ _ _ (by decide)

/-- Claim C2: for whitespace-only input the chain returns the
input-validation error result (each provider function rejects the input
before touching its backend, and the identical error dictionary
propagates out of the terminal fallback), and no external request is
performed. -/
theorem smart_summary_empty_input_error (env : Env) (text length : String)
    (h : pyStrip text = "") :
    smart_document_summary env text length =
      { summary := "No document text provided for summarization.",
        status := "error", length := length } ∧
    (smart_document_summary_events env text length).2.filter isApiEvent
      = [] := by
  have ho : openai_document_summary_events env text length =
      ({ summary := "No document text provided for summarization.",
         status := "error", length := length }, []) := by
    unfold openai_document_summary_events
    rw [if_pos h]
  have hl : ollama_document_summary_events env text length =
      ({ summary := "No document text provided for summarization.",
         status := "error", length := length }, []) := by
    unfold ollama_document_summary_events
    rw [if_pos h]
  have hf : fallback_extractive_summary text length =
      { summary := "No document text provided for summarization.",
        status := "error", length := length } := by
    unfold fallback_extractive_summary
    rw [if_pos h]
  unfold smart_document_summary smart_document_summary_events
    smart_local_part smart_hf_part
  cases hc : env.hasClient <;>
    simp [hc, ho, hl, hf, HF_AVAILABLE, isApiEvent]

/-- Claim C2 witness. -/
theorem smart_summary_empty_input_error_witness :
    smart_document_summary
        ⟨true, fun _ _ _ => .reply "hi" none,
          .http 200 ["mistral:7b"], fun _ _ => .http 200 "" "text" 1 1⟩
        "   " "medium" =
      { summary := "No document text provided for summarization.",
        status := "error", length := "medium" } ∧
    (smart_document_summary_events
        ⟨true, fun _ _ _ => .reply "hi" none,
          .http 200 ["mistral:7b"], fun _ _ => .http 200 "" "text" 1 1⟩
        "   " "medium").2.filter isApiEvent = [] :=
  smart_summary_empty_input_error _ _ _ (by decide)

/-- Claim C4: on the spec's example text, the extractive fallback builds
the stated frequency table (lowercased, non-word characters stripped,
words longer than 3 characters), scores each sentence as the frequency
sum plus the −10 / −5 length penalty, selects the top 3 of the 4
sentences, reassembles them in original order and ends with a period. -/
theorem extractive_example_cats :
    fallbackFreq "Cats are mammals. Cats have fur. The quick brown fox jumps. Foxes are wild." "cats".data = 2 ∧
    fallbackFreq "Cats are mammals. Cats have fur. The quick brown fox jumps. Foxes are wild." "the".data = 0 ∧
    fallbackScored "Cats are mammals. Cats have fur. The quick brown fox jumps. Foxes are wild." =
      [(-7, 0, "Cats are mammals".data), (-7, 1, "Cats have fur".data),
       (3, 2, "The quick brown fox jumps".data), (-8, 3, "Foxes are wild.".data)] ∧
    fallback_extractive_summary
        "Cats are mammals. Cats have fur. The quick brown fox jumps. Foxes are wild." "short" =
      { summary := "Cats are mammals. Cats have fur. The quick brown fox jumps.",
        status := "success", length := "short",
        model_used := some "extractive_fallback",
        sentences_selected := some 3 } := by
  decide

theorem numSentences_short (n : Nat) : numSentences "short" n = min 3 n := rfl

theorem numSentences_medium (n : Nat) : numSentences "medium" n = min 5 n := rfl

theorem numSentences_long (n : Nat) : numSentences "long" n = min 8 n := rfl

theorem numSentences_default (bad : String) (h1 : bad ≠ "short")
    (h2 : bad ≠ "medium") (h3 : bad ≠ "long") (n : Nat) :
    numSentences bad n = 5 := by
  unfold numSentences
  rw [if_neg h1, if_neg h2, if_neg h3]

/-- Claim C7: the extractive fallback selects
`min (sentence count) cap` sentences for the three recognized length
classes (cap 3 / 5 / 8); with at least 8 sentences `long` selects
exactly 8, and with exactly 2 sentences every length value selects
exactly 2. -/
theorem extractive_sentence_count (text : String) :
    (∀ length cap,
      ((length = "short" ∧ cap = 3) ∨ (length = "medium" ∧ cap = 5) ∨
        (length = "long" ∧ cap = 8)) →
      (fallbackSelected text length).length =
        min (fallbackSentences text).length cap) ∧
    (8 ≤ (fallbackSentences text).length →
      (fallbackSelected text "long").length = 8) ∧
    ((fallbackSentences text).length = 2 →
      ∀ length, (fallbackSelected text length).length = 2) := by
  refine ⟨?_, ?_, ?_⟩
  · rintro length cap (⟨h, hc⟩ | ⟨h, hc⟩ | ⟨h, hc⟩) <;> subst h <;> subst hc
    · rw [fallbackSelected_length, numSentences_short]; omega
    · rw [fallbackSelected_length, numSentences_medium]; omega
    · rw [fallbackSelected_length, numSentences_long]; omega
  · intro h8
    rw [fallbackSelected_length, numSentences_long]
    omega
  · intro h2 length
    rw [fallbackSelected_length, h2]
    by_cases hs : length = "short"
    · subst hs; rw [numSentences_short]; omega
    by_cases hm : length = "medium"
    · subst hm; rw [numSentences_medium]; omega
    by_cases hl : length = "long"
    · subst hl; rw [numSentences_long]; omega
    rw [numSentences_default length hs hm hl]
    omega

/-- Claim C7 witness. -/
theorem extractive_sentence_count_witness :
    (fallbackSelected
      "A one here. B two here. C three here. D four here. E five here. F six here. G seven here. H eight here."
      "long").length = 8 ∧
    (fallbackSelected "Hello there my good friend. Another fine sentence here today."
      "weird").length = 2 :=
  ⟨(extractive_sentence_count _).2.1 (by decide),
   (extractive_sentence_count _).2.2 (by decide) "weird"⟩

/-- Claim C8 counterexample: with an unrecognized length value the
extractive fallback does not behave exactly as for `"medium"`: the
returned dictionary echoes the unrecognized value in its `length` key
and reports `sentences_selected = 5` (the bare dictionary default,
without the `min` against the sentence count), here on a 2-sentence
input where `"medium"` reports 2. -/
theorem extractive_unrecognized_length_counterexample :
    (fallback_extractive_summary
      "Hello there my good friend. Another fine sentence here today." "weird").length = "weird" ∧
    (fallback_extractive_summary
      "Hello there my good friend. Another fine sentence here today." "weird").sentences_selected = some 5 ∧
    (fallback_extractive_summary
      "Hello there my good friend. Another fine sentence here today." "medium").length = "medium" ∧
    (fallback_extractive_summary
      "Hello there my good friend. Another fine sentence here today." "medium").sentences_selected = some 2 ∧
    fallback_extractive_summary
        "Hello there my good friend. Another fine sentence here today." "weird" ≠
      fallback_extractive_summary
        "Hello there my good friend. Another fine sentence here today." "medium" := by
  decide

/-- With an unrecognized length the fallback takes the dictionary
default 5, which selects the same sentences as `"medium"`
(`min 5` of the sentence count). -/
theorem fallbackSelected_unrecognized (text bad : String)
    (h1 : bad ≠ "short") (h2 : bad ≠ "medium") (h3 : bad ≠ "long") :
    fallbackSelected text bad = fallbackSelected text "medium" := by
  unfold fallbackSelected
  congr 1
  apply List.take_eq_take.mpr
  unfold fallbackSortedDesc
  rw [sortBy_length, fallbackScored_length,
    numSentences_default bad h1 h2 h3, numSentences_medium]
  omega

/-- Claim C8 amended: an unrecognized length value is normalized to
`"medium"` by the cloud provider (once the input and client checks have
passed) and by the local provider (once the input and connection checks
have passed), making those calls identical to `length = "medium"`; the
extractive fallback performs no normalization but selects the same
sentences and returns the same summary text and status as `"medium"`,
while its result dictionary echoes the unrecognized value (`length`
key, and a `sentences_selected` of 5 not clamped to the sentence
count).  The early-exit error results of the LLM providers likewise
echo the unrecognized value. -/
theorem length_normalization_amended (env : Env) (text bad : String)
    (h1 : bad ≠ "short") (h2 : bad ≠ "medium") (h3 : bad ≠ "long") :
    (env.hasClient = true → pyStrip text ≠ "" →
      openai_document_summary env text bad =
        openai_document_summary env text "medium") ∧
    (pyStrip text ≠ "" → (test_ollama_connection env).1 = true →
      ollama_document_summary env text bad =
        ollama_document_summary env text "medium") ∧
    ((fallback_extractive_summary text bad).summary =
        (fallback_extractive_summary text "medium").summary ∧
      (fallback_extractive_summary text bad).status =
        (fallback_extractive_summary text "medium").status) := by
  have hnorm : normalizeLength bad = normalizeLength "medium" := by
    simp [normalizeLength, h1, h2, h3]
  refine ⟨?_, ?_, ?_⟩
  · intro hc ht
    unfold openai_document_summary openai_document_summary_events
    rw [if_neg ht, if_neg ht]
    simp only [hc, Bool.not_true, Bool.false_eq_true, if_false]
    rw [hnorm]
  · intro ht hconn
    unfold ollama_document_summary ollama_document_summary_events
    rw [if_neg ht, if_neg ht]
    simp only [hconn, Bool.not_true, Bool.false_eq_true, if_false]
    rw [hnorm]
  · unfold fallback_extractive_summary
    by_cases ht : pyStrip text = ""
    · rw [if_pos ht, if_pos ht]
      exact ⟨rfl, rfl⟩
    · rw [if_neg ht, if_neg ht]
      refine ⟨?_, rfl⟩
      simp only
      rw [fallbackSummaryText, fallbackSummaryText,
        fallbackSelected_unrecognized text bad h1 h2 h3]

/-- Claim C8 amended witness. -/
theorem length_normalization_amended_witness :
    openai_document_summary
        ⟨true, fun _ _ _ => .reply "A generated summary." none,
          .http 200 ["mistral:7b"], fun _ _ => .http 200 "" "A local summary." 5 5⟩
        "Hello there my good friend. Another fine sentence here today." "weird" =
      openai_document_summary
        ⟨true, fun _ _ _ => .reply "A generated summary." none,
          .http 200 ["mistral:7b"], fun _ _ => .http 200 "" "A local summary." 5 5⟩
        "Hello there my good friend. Another fine sentence here today." "medium" ∧
    ollama_document_summary
        ⟨true, fun _ _ _ => .reply "A generated summary." none,
          .http 200 ["mistral:7b"], fun _ _ => .http 200 "" "A local summary." 5 5⟩
        "Hello there my good friend. Another fine sentence here today." "weird" =
      ollama_document_summary
        ⟨true, fun _ _ _ => .reply "A generated summary." none,
          .http 200 ["mistral:7b"], fun _ _ => .http 200 "" "A local summary." 5 5⟩
        "Hello there my good friend. Another fine sentence here today." "medium" ∧
    (fallback_extractive_summary
        "Hello there my good friend. Another fine sentence here today." "weird").summary =
      (fallback_extractive_summary
        "Hello there my good friend. Another fine sentence here today." "medium").summary := by
  have h := length_normalization_amended
    ⟨true, fun _ _ _ => .reply "A generated summary." none,
      .http 200 ["mistral:7b"], fun _ _ => .http 200 "" "A local summary." 5 5⟩
    "Hello there my good friend. Another fine sentence here today." "weird"
    (by decide) (by decide) (by decide)
  exact ⟨h.1 rfl (by decide), h.2.1 (by decide) (by decide), h.2.2.1⟩

/-- Claim C10: ties are broken by position.  The descending sort
comparison prefers, among equal scores, the sentence with the larger
original index; concretely, on a text whose first and last sentences
score equally (20) at the `short` cut-off, the last sentence (index 3)
is selected and the first (index 0) is dropped, while the emitted
summary still lists the selected sentences in ascending original
order. -/
theorem extractive_tie_break :
    (∀ (s : Int) (i j : Nat) (x y : List Char), i < j →
      scoredDescLe (s, j, x) (s, i, y) = true ∧
      scoredDescLe (s, i, y) (s, j, x) = false) ∧
    fallbackScored
        "alpha beta gamma delta epsilon. alpha alpha alpha alpha alpha. alpha alpha alpha alpha alpha. alpha beta gamma delta epsilon." =
      [(20, 0, "alpha beta gamma delta epsilon".data),
       (60, 1, "alpha alpha alpha alpha alpha".data),
       (60, 2, "alpha alpha alpha alpha alpha".data),
       (20, 3, "alpha beta gamma delta epsilon.".data)] ∧
    fallbackSortedDesc
        "alpha beta gamma delta epsilon. alpha alpha alpha alpha alpha. alpha alpha alpha alpha alpha. alpha beta gamma delta epsilon." =
      [(60, 2, "alpha alpha alpha alpha alpha".data),
       (60, 1, "alpha alpha alpha alpha alpha".data),
       (20, 3, "alpha beta gamma delta epsilon.".data),
       (20, 0, "alpha beta gamma delta epsilon".data)] ∧
    (fallback_extractive_summary
        "alpha beta gamma delta epsilon. alpha alpha alpha alpha alpha. alpha alpha alpha alpha alpha. alpha beta gamma delta epsilon."
        "short").summary =
      "alpha alpha alpha alpha alpha. alpha alpha alpha alpha alpha. alpha beta gamma delta epsilon." := by
  refine ⟨?_, by decide, by decide, by decide⟩
  intro s i j x y hij
  constructor
  · simp [scoredDescLe, hij]
  · simp [scoredDescLe, Nat.lt_asymm hij, Nat.ne_of_lt hij]

/-- Claim C10 witness. -/
theorem extractive_tie_break_witness :
    scoredDescLe (5, 3, "a".data) (5, 0, "b".data) = true ∧
    scoredDescLe (5, 0, "b".data) (5, 3, "a".data) = false :=
  extractive_tie_break.1 5 0 3 "a".data "b".data (by decide)

/-! ## Status-shape lemmas -/

theorem openaiTryModels_status (env : Env) (prompt : String) (maxTokens : Nat)
    (length : String) (ms : List String) (lastError : Option String) :
    (openaiTryModels env prompt maxTokens length ms lastError).1.status
        = "success" ∨
      (openaiTryModels env prompt maxTokens length ms lastError).1.status
        = "error" := by
  induction ms generalizing lastError with
  | nil => right; rfl
  | cons m rest ih =>
      unfold openaiTryModels
      cases env.openaiCall m prompt maxTokens with
      | reply content tokens => left; rfl
      | raises msg => exact ih (some msg)

theorem openai_status_cases (env : Env) (text length : String) :
    (openai_document_summary env text length).status = "success" ∨
      (openai_document_summary env text length).status = "error" := by
  unfold openai_document_summary openai_document_summary_events
  split
  · right; rfl
  · split
    · right; rfl
    · exact openaiTryModels_status _ _ _ _ _ _

theorem ollama_status_cases (env : Env) (text length : String) :
    (ollama_document_summary env text length).status = "success" ∨
      (ollama_document_summary env text length).status = "error" := by
  unfold ollama_document_summary ollama_document_summary_events
  dsimp only
  split
  · right; rfl
  · split
    · right; rfl
    · split
      · split
        · split
          · left; rfl
          · right; rfl
        · right; rfl
      · right; rfl
      · right; rfl

theorem fallback_status_cases (text length : String) :
    (fallback_extractive_summary text length).status = "success" ∨
      (fallback_extractive_summary text length).status = "error" := by
  unfold fallback_extractive_summary
  split
  · right; rfl
  · left; rfl

theorem smart_status_cases (env : Env) (text length : String) :
    (smart_document_summary env text length).status = "success" ∨
      (smart_document_summary env text length).status = "error" := by
  unfold smart_document_summary smart_document_summary_events
    smart_local_part smart_hf_part
  simp only [HF_AVAILABLE, Bool.false_eq_true, if_false]
  split
  · split
    · left; assumption
    · split
      · left; assumption
      · exact fallback_status_cases text length
  · split
    · left; assumption
    · exact fallback_status_cases text length

/-- Claim C9: every provider function, and the chain itself, is a total
function into structured results whose `status` is `"success"` or
`"error"`, for every behaviour of the external world (raising library
calls, timeouts, missing credentials, empty responses and non-2xx
statuses are all explicit `Env` outcomes absorbed into error
results). -/
theorem providers_return_structured_result (env : Env) (text length : String) :
    ((openai_document_summary env text length).status = "success" ∨
      (openai_document_summary env text length).status = "error") ∧
    ((ollama_document_summary env text length).status = "success" ∨
      (ollama_document_summary env text length).status = "error") ∧
    ((fallback_extractive_summary text length).status = "success" ∨
      (fallback_extractive_summary text length).status = "error") ∧
    ((smart_document_summary env text length).status = "success" ∨
      (smart_document_summary env text length).status = "error") :=
  ⟨openai_status_cases env text length, ollama_status_cases env text length,
    fallback_status_cases text length, smart_status_cases env text length⟩

/-- Claim C3 counterexample: the source has no emptiness check on the
completion — a model whose call returns an empty response still wins.
With the first model returning `""` and every other model raising,
`openai_document_summary` returns `status = "success"` with an empty
summary from `"gpt-4o-mini"`, and no further model is tried. -/
theorem openai_empty_response_counterexample :
    (openai_document_summary
      ⟨true,
        fun model _ _ =>
          if model = "gpt-4o-mini" then .reply "" none else .raises "boom",
        .connError, fun _ _ => .timeout⟩
      "Some document text." "medium").status = "success" ∧
    (openai_document_summary
      ⟨true,
        fun model _ _ =>
          if model = "gpt-4o-mini" then .reply "" none else .raises "boom",
        .connError, fun _ _ => .timeout⟩
      "Some document text." "medium").model_used = some "gpt-4o-mini" ∧
    (openai_document_summary
      ⟨true,
        fun model _ _ =>
          if model = "gpt-4o-mini" then .reply "" none else .raises "boom",
        .connError, fun _ _ => .timeout⟩
      "Some document text." "medium").summary = "" ∧
    (openai_document_summary_events
      ⟨true,
        fun model _ _ =>
          if model = "gpt-4o-mini" then .reply "" none else .raises "boom",
        .connError, fun _ _ => .timeout⟩
      "Some document text." "medium").2 = [Ev.apiOpenAI "gpt-4o-mini"] := by
  decide

/-- Claim C3 amended: the fixed model list is tried in order, and the
first model whose API call returns without raising wins — even when its
returned text is empty; a model is skipped only when its call raises.
If every model raises, the provider returns `status = "error"` with the
last underlying error message included in the result. -/
theorem openai_model_fallback_amended (env : Env) (text length e1 : String)
    (hc : env.hasClient = true) (ht : pyStrip text ≠ "")
    (h1 : ∀ p k, env.openaiCall "gpt-4o-mini" p k = ApiResult.raises e1) :
    (∀ content tokens,
      (∀ p k, env.openaiCall "gpt-3.5-turbo" p k = ApiResult.reply content tokens) →
      openai_document_summary env text length =
        { summary := pyStrip content, status := "success",
          length := normalizeLength length,
          model_used := some "gpt-3.5-turbo", tokens_used := tokens } ∧
      (openai_document_summary_events env text length).2 =
        [Ev.apiOpenAI "gpt-4o-mini", Ev.apiOpenAI "gpt-3.5-turbo"]) ∧
    (∀ e2 e3,
      (∀ p k, env.openaiCall "gpt-3.5-turbo" p k = ApiResult.raises e2) →
      (∀ p k, env.openaiCall "gpt-4" p k = ApiResult.raises e3) →
      openai_document_summary env text length =
        { summary := "Failed to generate summary with all available models." ++
            (" Last error: " ++ e3),
          status := "error", length := normalizeLength length } ∧
      (openai_document_summary_events env text length).2 =
        [Ev.apiOpenAI "gpt-4o-mini", Ev.apiOpenAI "gpt-3.5-turbo",
          Ev.apiOpenAI "gpt-4"]) := by
  have key : openai_document_summary_events env text length =
      openaiTryModels env
        (summaryPrompt (length_instructions (normalizeLength length)) text)
        (if normalizeLength length = "long" then 1000
          else if normalizeLength length = "medium" then 500 else 200)
        (normalizeLength length) openaiModels none := by
    unfold openai_document_summary_events
    rw [if_neg ht]
    simp only [hc, Bool.not_true, Bool.false_eq_true, if_false]
  constructor
  · intro content tokens h2
    rw [openai_document_summary, key]
    unfold openaiModels
    simp only [openaiTryModels, h1, h2]
    refine ⟨by trivial, by trivial⟩
  · intro e2 e3 h2 h3
    rw [openai_document_summary, key]
    unfold openaiModels
    simp only [openaiTryModels, h1, h2, h3]
    refine ⟨by trivial, by trivial⟩

/-- Claim C3 amended witness. -/
theorem openai_model_fallback_amended_witness :
    openai_document_summary
        ⟨true,
          fun model _ _ =>
            if model = "gpt-4o-mini" then .raises "quota exceeded"
            else .reply "" none,
          .connError, fun _ _ => .timeout⟩
        "Some document text." "medium" =
      { summary := "", status := "success", length := "medium",
        model_used := some "gpt-3.5-turbo", tokens_used := none } ∧
    openai_document_summary
        ⟨true,
          fun model _ _ =>
            if model = "gpt-4o-mini" then .raises "error one"
            else if model = "gpt-3.5-turbo" then .raises "error two"
            else .raises "error three",
          .connError, fun _ _ => .timeout⟩
        "Some document text." "medium" =
      { summary := "Failed to generate summary with all available models. Last error: error three",
        status := "error", length := "medium" } := by
  constructor
  · exact ((openai_model_fallback_amended _ "Some document text." "medium"
      "quota exceeded" rfl (by decide) (fun _ _ => rfl)).1 "" none
      (fun _ _ => rfl)).1
  · exact ((openai_model_fallback_amended _ "Some document text." "medium"
      "error one" rfl (by decide) (fun _ _ => rfl)).2 "error two" "error three"
      (fun _ _ => rfl) (fun _ _ => rfl)).1

/-! ## Event-shape lemmas for the chain -/

theorem openaiTryModels_count (env : Env) (prompt : String) (maxTokens : Nat)
    (length : String) (ms : List String) (lastError : Option String) :
    (openaiTryModels env prompt maxTokens length ms lastError).2.count
      Ev.callOpenAI = 0 := by
  induction ms generalizing lastError with
  | nil => rfl
  | cons m rest ih =>
      unfold openaiTryModels
      cases env.openaiCall m prompt maxTokens with
      | reply content tokens => rfl
      | raises msg => simp [List.count_cons, ih (some msg)]

theorem openai_events_count (env : Env) (text length : String) :
    (openai_document_summary_events env text length).2.count Ev.callOpenAI
      = 0 := by
  unfold openai_document_summary_events
  split
  · rfl
  · split
    · rfl
    · exact openaiTryModels_count _ _ _ _ _ _

theorem ollama_events_shape (env : Env) (text length : String) :
    (ollama_document_summary_events env text length).2 = [] ∨
      (ollama_document_summary_events env text length).2 =
        [Ev.apiOllamaTags] ∨
      (ollama_document_summary_events env text length).2 =
        [Ev.apiOllamaTags, Ev.apiOllamaGen] := by
  unfold ollama_document_summary_events
  dsimp only
  split
  · left; rfl
  · split
    · right; left; rfl
    · split
      · split
        · split
          · right; right; rfl
          · right; right; rfl
        · right; right; rfl
      · right; right; rfl
      · right; right; rfl

theorem ollama_events_count (env : Env) (text length : String) :
    (ollama_document_summary_events env text length).2.count Ev.callOpenAI
      = 0 := by
  rcases ollama_events_shape env text length with h | h | h <;> rw [h] <;> rfl

/-- Claim C6: whenever the cloud provider is configured and returns
`status = "error"`, the chain's event trace is exactly one cloud
attempt followed by the local (Ollama) attempt followed (only if the
local provider also fails) by the extractive fallback; the cloud
provider is never re-attempted (its chain-level event occurs exactly
once, and the later segments contain no cloud events); and if the
local provider succeeds the chain returns its result. -/
theorem chain_cloud_error_falls_to_local (env : Env) (text length : String)
    (hc : env.hasClient = true)
    (he : (openai_document_summary env text length).status = "error") :
    (smart_document_summary_events env text length).2 =
      Ev.callOpenAI :: (openai_document_summary_events env text length).2 ++
        Ev.callOllama :: (ollama_document_summary_events env text length).2 ++
        (if (ollama_document_summary env text length).status = "success"
          then [] else [Ev.callExtractive]) ∧
    (smart_document_summary_events env text length).2.count Ev.callOpenAI
      = 1 ∧
    ((ollama_document_summary_events env text length).2.count Ev.callOpenAI
      = 0 ∧
     (ollama_document_summary_events env text length).2.count
        (Ev.apiOpenAI "gpt-4o-mini") = 0) ∧
    ((ollama_document_summary env text length).status = "success" →
      smart_document_summary env text length =
        ollama_document_summary env text length) := by
  have he' : ¬ ((openai_document_summary_events env text length).1.status
      = "success") := by
    intro h
    have : "success" = "error" := h.symm.trans he
    exact absurd this (by decide)
  have hsmart : smart_document_summary_events env text length =
      ((smart_local_part env text length).1,
        Ev.callOpenAI :: (openai_document_summary_events env text length).2 ++
          (smart_local_part env text length).2) := by
    unfold smart_document_summary_events
    rw [if_pos hc, if_neg he']
  have hlocal : smart_local_part env text length =
      (if (ollama_document_summary env text length).status = "success" then
        (ollama_document_summary env text length,
          Ev.callOllama :: (ollama_document_summary_events env text length).2)
      else
        (fallback_extractive_summary text length,
          Ev.callOllama :: (ollama_document_summary_events env text length).2
            ++ [Ev.callExtractive])) := by
    unfold smart_local_part smart_hf_part
    simp only [HF_AVAILABLE, Bool.false_eq_true, if_false]
    split
    · rw [if_pos (by assumption)]
      rfl
    · rw [if_neg (by assumption)]
  have hapi : (ollama_document_summary_events env text length).2.count
        (Ev.apiOpenAI "gpt-4o-mini") = 0 := by
    rcases ollama_events_shape env text length with h | h | h <;>
      rw [h] <;> rfl
  refine ⟨?_, ?_, ⟨ollama_events_count env text length, hapi⟩, ?_⟩
  · rw [hsmart, hlocal]
    by_cases hol : (ollama_document_summary env text length).status
        = "success"
    · rw [if_pos hol, if_pos hol]
      simp
    · rw [if_neg hol, if_neg hol]
      simp
  · rw [hsmart, hlocal]
    by_cases hol : (ollama_document_summary env text length).status
        = "success"
    · rw [if_pos hol]
      simp [List.count_cons, List.count_append, openai_events_count,
        ollama_events_count]
    · rw [if_neg hol]
      simp [List.count_cons, List.count_append, openai_events_count,
        ollama_events_count]
  · intro hol
    show (smart_document_summary_events env text length).1 = _
    rw [hsmart, hlocal, if_pos hol]

/-- Claim C6 witness. -/
theorem chain_cloud_error_falls_to_local_witness :
    smart_document_summary
        ⟨true, fun _ _ _ => .raises "rate limited",
          .http 200 ["mistral:7b"],
          fun _ _ => .http 200 "" "A local model summary." 9 9⟩
        "Some document text to summarize." "medium" =
      ollama_document_summary
        ⟨true, fun _ _ _ => .raises "rate limited",
          .http 200 ["mistral:7b"],
          fun _ _ => .http 200 "" "A local model summary." 9 9⟩
        "Some document text to summarize." "medium" :=
  (chain_cloud_error_falls_to_local _ _ _ rfl (by decide)).2.2.2 (by decide)

/-- Claim C5: at most one `Summary` per `Document` via the pre-check.
Starting from a state in which the user owns the document, the document
text is non-empty and no summary exists for it, the first invocation of
the summarize workflow persists one summary and returns `"completed"`
with its id; invoking the workflow again for the same document returns
the `"already_exists"` signal carrying that same id, leaves the state
unchanged, and the state holds exactly one summary for the document. -/
theorem summarize_at_most_one_summary (env : Env) (db : DB)
    (docId userId : Nat) (length : String) (d : Document)
    (hd : get_document db docId userId = some d)
    (hs : get_summary_by_document db docId userId = none)
    (ht : pyStrip d.original_text ≠ "") :
    ∃ sid,
      (summarize_document env db docId userId length).1 =
        SummarizeOutcome.response "completed" sid
          "Document summarized successfully" ∧
      summarize_document env (summarize_document env db docId userId length).2
          docId userId length =
        (SummarizeOutcome.response "already_exists" sid
          "Summary already exists for this document",
         (summarize_document env db docId userId length).2) ∧
      (summarize_document env db docId userId length).2.summaries.countP
        (fun s => s.document_id = docId) = 1 := by
  have hai : ¬ ((smart_document_summary env d.original_text length).status
      = "error") := by
    rw [smart_success_of_nonempty env d.original_text length ht]
    decide
  have hd' : db.documents.find?
      (fun dd => dd.id = docId && dd.user_id = userId) = some d := hd
  have hs' : db.summaries.find?
      (fun s => s.document_id = docId &&
        db.documents.any
          (fun dd => dd.id = s.document_id && dd.user_id = userId))
      = none := hs
  have hpd : (decide (d.id = docId) && decide (d.user_id = userId))
      = true := by
    have h := List.find?_some hd'
    exact h
  have hmem : d ∈ db.documents := List.mem_of_find?_eq_some hd'
  have hany : db.documents.any
      (fun dd => dd.id = docId && dd.user_id = userId) = true :=
    List.any_eq_true.mpr ⟨d, hmem, hpd⟩
  have h1 : summarize_document env db docId userId length =
      (SummarizeOutcome.response "completed" db.nextId
        "Document summarized successfully",
       { db with
          summaries := db.summaries ++
            [{ id := db.nextId, document_id := docId,
               summary_text :=
                 (smart_document_summary env d.original_text length).summary,
               summary_length := length, status := "completed" }],
          nextId := db.nextId + 1 }) := by
    unfold summarize_document
    rw [hd, hs]
    dsimp only
    rw [if_neg hai]
    rfl
  refine ⟨db.nextId, by rw [h1], ?_, ?_⟩
  · rw [h1]
    dsimp only
    have hfind : get_summary_by_document
        { db with
            summaries := db.summaries ++
              [{ id := db.nextId, document_id := docId,
                 summary_text :=
                   (smart_document_summary env d.original_text length).summary,
                 summary_length := length, status := "completed" }],
            nextId := db.nextId + 1 } docId userId =
        some { id := db.nextId, document_id := docId,
               summary_text :=
                 (smart_document_summary env d.original_text length).summary,
               summary_length := length, status := "completed" } := by
      unfold get_summary_by_document
      dsimp only
      rw [List.find?_append]
      rw [hs']
      simp [List.find?, hany]
    unfold summarize_document
    rw [show get_document
        { db with
            summaries := db.summaries ++
              [{ id := db.nextId, document_id := docId,
                 summary_text :=
                   (smart_document_summary env d.original_text length).summary,
                 summary_length := length, status := "completed" }],
            nextId := db.nextId + 1 } docId userId = some d from hd]
    dsimp only
    rw [hfind]
  · rw [h1]
    dsimp only
    rw [List.countP_append]
    have hz : db.summaries.countP (fun s => s.document_id = docId) = 0 := by
      apply List.countP_eq_zero.mpr
      intro x hx hpx
      have hxd : x.document_id = docId := of_decide_eq_true hpx
      have := List.find?_eq_none.mp hs' x hx
      apply this
      rw [hxd]
      simp [hany]
    rw [hz]
    simp

/-- Claim C5 witness. -/
theorem summarize_at_most_one_summary_witness :
    ∃ sid,
      (summarize_document
        ⟨false, fun _ _ _ => .raises "off", .connError, fun _ _ => .timeout⟩
        ⟨[⟨1, 7, "Hello world. Nice to meet you.", "doc.pdf"⟩], [], 100⟩
        1 7 "short").1 =
        SummarizeOutcome.response "completed" sid
          "Document summarized successfully" ∧
      summarize_document
        ⟨false, fun _ _ _ => .raises "off", .connError, fun _ _ => .timeout⟩
        (summarize_document
          ⟨false, fun _ _ _ => .raises "off", .connError, fun _ _ => .timeout⟩
          ⟨[⟨1, 7, "Hello world. Nice to meet you.", "doc.pdf"⟩], [], 100⟩
          1 7 "short").2 1 7 "short" =
        (SummarizeOutcome.response "already_exists" sid
          "Summary already exists for this document",
         (summarize_document
          ⟨false, fun _ _ _ => .raises "off", .connError, fun _ _ => .timeout⟩
          ⟨[⟨1, 7, "Hello world. Nice to meet you.", "doc.pdf"⟩], [], 100⟩
          1 7 "short").2) ∧
      (summarize_document
        ⟨false, fun _ _ _ => .raises "off", .connError, fun _ _ => .timeout⟩
        ⟨[⟨1, 7, "Hello world. Nice to meet you.", "doc.pdf"⟩], [], 100⟩
        1 7 "short").2.summaries.countP
        (fun s => s.document_id = 1) = 1 :=
  summarize_at_most_one_summary
    ⟨false, fun _ _ _ => .raises "off", .connError, fun _ _ => .timeout⟩
    ⟨[⟨1, 7, "Hello world. Nice to meet you.", "doc.pdf"⟩], [], 100⟩
    1 7 "short" ⟨1, 7, "Hello world. Nice to meet you.", "doc.pdf"⟩
    (by decide) (by decide) (by decide)

end SmartDoc
